import Mathlib

/-!
Verification of the community-contribution form of the Sikkim Monastery
project (`src/app/community/page.tsx`).

The page consists of a zod validation schema (`formSchema`), a file-selection
handler (`handleFileChange`), an async submission handler (`onSubmit`) whose
dispatch is a simulated delay that always resolves, and a presenter that
renders one of three branches (pending / summary / awaiting input).

We embed the component as a pure state-transition system: the component-local
hook state becomes an explicit record `PageState`, user and service events
become an `Event` type, and the handlers become a `step` function returning
the next state together with the emitted effects (dispatches and toasts).
-/

namespace Community

/-- A browser `File` reference as the form sees it: display name, byte size
and mime type (the raw bytes stay with the runtime). -/
structure FileRef where
  name : String
  size : Nat
  mimeType : String
deriving Repr, DecidableEq

/-- `FormValues`, inferred from `formSchema`: `artifactName`, optional/nullable
`artifactFile`, `contributionText`. -/
structure FormValues where
  artifactName : String
  artifactFile : Option FileRef
  contributionText : String
deriving Repr, DecidableEq

/-- One zod issue surfaced by the resolver: the field path and the
human-readable message from the schema. -/
structure FieldError where
  path : String
  message : String
deriving Repr, DecidableEq

/-- Message attached to `artifactName: z.string().min(2, ...)`. -/
def artifactNameMsg : String := "Artifact name must be at least 2 characters."

/-- Message attached to `contributionText: z.string().min(20, ...)`. -/
def contributionTextMsg : String := "Description must be at least 20 characters long."

/-- The zod `formSchema` as a validation function. zod checks every field of
an object and collects the issues in schema order (`artifactName`,
`artifactFile`, `contributionText`); it does not stop at the first failure.
`artifactName` fails below length 2, `contributionText` below length 20, and
`artifactFile` is `z.instanceof(File).optional().nullable()`, which every
`Option FileRef` satisfies, so it contributes no issue. On success zod returns
the parsed values unchanged (no trimming or coercion in this schema). -/
def validate (v : FormValues) : Except (List FieldError) FormValues :=
  let nameErrs : List FieldError :=
    if v.artifactName.length < 2 then [⟨"artifactName", artifactNameMsg⟩] else []
  let textErrs : List FieldError :=
    if v.contributionText.length < 20 then [⟨"contributionText", contributionTextMsg⟩] else []
  match nameErrs ++ textErrs with
  | [] => Except.ok v
  | errs => Except.error errs

/-- `defaultValues` passed to `useForm`. -/
def defaultValues : FormValues :=
  { artifactName := "", artifactFile := none, contributionText := "" }

/-- The component-local state held by the hooks: the form record, the
`isPending` transition flag, the displayed `summary`, the `selectedFileName`
display state, the raw file input widget's `value` string, and the values
captured by an in-flight submission (the closure argument of `onSubmit`). -/
structure PageState where
  form : FormValues
  isPending : Bool
  summary : Option String
  selectedFileName : Option String
  fileInputValue : String
  inFlight : Option FormValues
deriving Repr, DecidableEq

/-- State at mount: defaults everywhere, nothing pending, nothing selected. -/
def initialState : PageState :=
  { form := defaultValues, isPending := false, summary := none,
    selectedFileName := none, fileInputValue := "", inFlight := none }

/-- `handleFileChange`: `const file = event.target.files?.[0] || null;` then
`form.setValue("artifactFile", file)` and
`setSelectedFileName(file ? file.name : null)`. The event carries the file
list offered by the picker; only its first element is taken. -/
def handleFileChange (files : List FileRef) (s : PageState) : PageState :=
  let file := files.head?
  { s with
    form := { s.form with artifactFile := file },
    selectedFileName := file.map FileRef.name }

/-- The string interpolation
`values.artifactFile ? \x60 (with file: ${values.artifactFile.name})\x60 : ""`. -/
def fileInfo (v : FormValues) : String :=
  match v.artifactFile with
  | some f => " (with file: " ++ f.name ++ ")"
  | none => ""

/-- The summary template set on success:
`Thank you for your submission about "${values.artifactName}"${fileInfo}. ...`. -/
def summaryText (v : FormValues) : String :=
  "Thank you for your submission about \"" ++ v.artifactName ++ "\"" ++ fileInfo v
    ++ ". The data has been received and will be authenticated and added to the archive."

/-- Outcome of the awaited dispatch inside `onSubmit`'s `try` block. -/
inductive Outcome where
  | resolved
  | rejected (reason : String)
deriving Repr, DecidableEq

/-- The concrete dispatch used by the page:
`await new Promise(resolve => setTimeout(resolve, 2000))`. The promise is
resolved unconditionally by the timer, so the simulated service never
rejects. -/
def simulateDispatch (_v : FormValues) : Outcome := Outcome.resolved

/-- Observable effects emitted by the handlers: the async dispatch, the two
toasts, and the resolver surfacing field errors on a blocked submit. -/
inductive Effect where
  | dispatch (v : FormValues)
  | notifySuccess (title description : String)
  | notifyError (title description : String)
  | fieldErrors (errs : List FieldError)
deriving Repr, DecidableEq

/-- Events driving the component: field edits, a file selection with the
picker's file list, a click on the submit button, and the resolution of the
awaited dispatch. -/
inductive Event where
  | editArtifactName (s : String)
  | editContributionText (s : String)
  | fileSelect (files : List FileRef)
  | submitClick
  | serviceOutcome (o : Outcome)
deriving Repr, DecidableEq

/-- A click on the submit button. The button carries `disabled={isPending}`,
so while a submission is pending the click produces no event at all: state is
unchanged and nothing is dispatched. Otherwise `form.handleSubmit` runs the
resolver: on failure it surfaces the field errors and never calls `onSubmit`;
on success `onSubmit` starts the transition, which sets `isPending`, runs
`setSummary(null)` and issues the single dispatch, capturing `values`. -/
def submitClick (s : PageState) : PageState × List Effect :=
  if s.isPending then (s, [])
  else
    match validate s.form with
    | Except.error errs => (s, [Effect.fieldErrors errs])
    | Except.ok v =>
        ({ s with isPending := true, summary := none, inFlight := some v },
         [Effect.dispatch v])

/-- Resolution of the awaited dispatch for the in-flight values. On
resolution the `try` block continues: `setSummary(template)`, the success
toast, `form.reset()`, `setSelectedFileName(null)` and
`fileInputRef.current.value = ""`. On rejection the `catch` block runs: only
the error toast; form, selected file name and input widget are untouched.
Either way the transition ends, clearing `isPending`. With no submission in
flight the event cannot arise and nothing changes. -/
def resolveWith (s : PageState) (o : Outcome) : PageState × List Effect :=
  match s.inFlight with
  | none => (s, [])
  | some v =>
      match o with
      | Outcome.resolved =>
          ({ s with
              summary := some (summaryText v),
              form := defaultValues,
              selectedFileName := none,
              fileInputValue := "",
              isPending := false,
              inFlight := none },
           [Effect.notifySuccess "Contribution Received!"
              "Your submission has been sent for review."])
      | Outcome.rejected _ =>
          ({ s with isPending := false, inFlight := none },
           [Effect.notifyError "Error"
              "Failed to submit contribution. Please try again."])

/-- One step of the component: dispatch on the event. Field edits write
through the controlled inputs; the rest delegates to the handlers above. -/
def step (s : PageState) (e : Event) : PageState × List Effect :=
  match e with
  | Event.editArtifactName x =>
      ({ s with form := { s.form with artifactName := x } }, [])
  | Event.editContributionText x =>
      ({ s with form := { s.form with contributionText := x } }, [])
  | Event.fileSelect files => (handleFileChange files s, [])
  | Event.submitClick => submitClick s
  | Event.serviceOutcome o => resolveWith s o

/-- Run a list of events from a state, discarding effects. -/
def runEvents (s : PageState) (es : List Event) : PageState :=
  es.foldl (fun s e => (step s e).1) s

/-- The three mutually exclusive render branches of the summary card. -/
inductive RenderBranch where
  | pendingIndicator
  | resultText (t : String)
  | awaitingInput
deriving Repr, DecidableEq

/-- The presenter: `isPending ? <spinner> : summary ? <result> : <awaiting>`. -/
def render (s : PageState) : RenderBranch :=
  if s.isPending then RenderBranch.pendingIndicator
  else
    match s.summary with
    | some t => RenderBranch.resultText t
    | none => RenderBranch.awaitingInput

/-- Whether the character list starts with the pattern. -/
def startsWithChars : List Char → List Char → Bool
  | _, [] => true
  | [], _ :: _ => false
  | c :: cs, p :: ps => c == p && startsWithChars cs ps

/-- Whether the pattern occurs contiguously somewhere in the character list. -/
def hasSubChars : List Char → List Char → Bool
  | [], pat => startsWithChars [] pat
  | c :: cs, pat => startsWithChars (c :: cs) pat || hasSubChars cs pat

/-- Substring occurrence on strings, via their character lists. -/
def strContains (s pat : String) : Bool := hasSubChars s.data pat.data

/-- The contribution text of the Phurba Dagger scenario of §8. -/
def phurbaText : String := "A ceremonial dagger used in ritual practice for generations."

/-- Scenario of §8 without a file: type the two fields, submit, let the
dispatch resolve. -/
def scenario1 : List Event :=
  [Event.editArtifactName "Phurba Dagger", Event.editContributionText phurbaText,
   Event.submitClick, Event.serviceOutcome Outcome.resolved]

/-- The attached file of the second §8 scenario. -/
def daggerFile : FileRef := { name := "dagger.jpg", size := 1024, mimeType := "image/jpeg" }

/-- Scenario of §8 with the file: same, but select `dagger.jpg` first. -/
def scenario2 : List Event := Event.fileSelect [daggerFile] :: scenario1

/-- Claim C1: for every `FormValues` whose `artifactName` has length at least 2
and whose `contributionText` has length at least 20, `validate` succeeds and
returns the values unchanged, whatever the attachment field holds — absent or
any file of any size or mime type. -/
theorem c1_validate_succeeds (n t : String) (f : Option FileRef)
    (hn : 2 ≤ n.length) (ht : 20 ≤ t.length) :
    validate ⟨n, f, t⟩ = Except.ok ⟨n, f, t⟩ := by
  have h1 : ¬ n.length < 2 := Nat.not_lt.mpr hn
  have h2 : ¬ t.length < 20 := Nat.not_lt.mpr ht
  simp [validate, h1, h2]

/-- Witness for C1 at a concrete input with a large video attachment. -/
theorem c1_validate_succeeds_witness :
    validate ⟨"ab", some ⟨"big.mov", 99999999, "video/quicktime"⟩, "aaaaaaaaaaaaaaaaaaaa"⟩
      = Except.ok ⟨"ab", some ⟨"big.mov", 99999999, "video/quicktime"⟩, "aaaaaaaaaaaaaaaaaaaa"⟩ :=
  c1_validate_succeeds "ab" "aaaaaaaaaaaaaaaaaaaa"
    (some ⟨"big.mov", 99999999, "video/quicktime"⟩) (by decide) (by decide)

/-- Claim C2: on `{artifactName := "A", contributionText := "short"}` (with any
attachment) `validate` fails with exactly two field errors, in schema order —
one for `artifactName` and one for `contributionText` — each carrying the
field path and the human-readable schema message. Both fields are checked:
validation does not stop at the first failure. -/
theorem c2_two_field_errors (f : Option FileRef) :
    validate ⟨"A", f, "short"⟩ =
      Except.error [⟨"artifactName", artifactNameMsg⟩,
                    ⟨"contributionText", contributionTextMsg⟩] := rfl

/-- Claim C3: `validate` does not trim `artifactName`: a name made only of
whitespace still passes when its raw length is at least 2 (and the text has
length at least 20). -/
theorem c3_whitespace_name_passes (n t : String) (f : Option FileRef)
    (_hw : ∀ c ∈ n.data, c.isWhitespace = true)
    (hn : 2 ≤ n.length) (ht : 20 ≤ t.length) :
    validate ⟨n, f, t⟩ = Except.ok ⟨n, f, t⟩ := by
  have h1 : ¬ n.length < 2 := Nat.not_lt.mpr hn
  have h2 : ¬ t.length < 20 := Nat.not_lt.mpr ht
  simp [validate, h1, h2]

/-- Witness for C3: a name of two spaces passes. -/
theorem c3_whitespace_name_passes_witness :
    validate ⟨"  ", none, "aaaaaaaaaaaaaaaaaaab"⟩
      = Except.ok ⟨"  ", none, "aaaaaaaaaaaaaaaaaaab"⟩ :=
  c3_whitespace_name_passes "  " "aaaaaaaaaaaaaaaaaaab" none
    (by decide) (by decide) (by decide)

/-- Claim C4: after two file selections in sequence the single retained
attachment is the first file of the second selection, whatever the first
selection and the prior state were; the previous attachment is replaced
wholesale, and of a multi-file selection only the first file is taken.
The displayed file name tracks it. -/
theorem c4_second_selection_wins (s : PageState) (fs1 fs2 : List FileRef) :
    (handleFileChange fs2 (handleFileChange fs1 s)).form.artifactFile = fs2.head? ∧
    (handleFileChange fs2 (handleFileChange fs1 s)).selectedFileName
      = fs2.head?.map FileRef.name := by
  simp [handleFileChange]

/-- Claim C5: while a submission is pending, a further submit event changes
nothing — same state, no dispatch, no effect at all — so at most one
submission is ever in flight. -/
theorem c5_pending_ignores_submit (s : PageState) (h : s.isPending = true) :
    step s Event.submitClick = (s, []) := by
  simp [step, submitClick, h]

/-- Witness for C5 at a concrete pending state. -/
theorem c5_pending_ignores_submit_witness :
    step { initialState with isPending := true } Event.submitClick
      = ({ initialState with isPending := true }, []) :=
  c5_pending_ignores_submit { initialState with isPending := true } rfl

/-- Claim C6: when the in-flight dispatch resolves, the form returns to its
defaults (`artifactName ""`, `artifactFile none`, `contributionText ""`), the
attachment display state is cleared, and the raw file input widget's value is
released to the empty string. -/
theorem c6_resolved_resets (s : PageState) (v : FormValues)
    (h : s.inFlight = some v) :
    (step s (Event.serviceOutcome Outcome.resolved)).1.form = defaultValues ∧
    (step s (Event.serviceOutcome Outcome.resolved)).1.selectedFileName = none ∧
    (step s (Event.serviceOutcome Outcome.resolved)).1.fileInputValue = "" := by
  simp [step, resolveWith, h]

/-- A concrete state mid-submission: values captured in flight, pending set,
a file chosen before the submit. -/
def inFlightExample : PageState :=
  { initialState with
      isPending := true
      form := ⟨"ab", some daggerFile, "aaaaaaaaaaaaaaaaaaaa"⟩
      selectedFileName := some "dagger.jpg"
      fileInputValue := "C:\\fakepath\\dagger.jpg"
      inFlight := some ⟨"ab", some daggerFile, "aaaaaaaaaaaaaaaaaaaa"⟩ }

/-- Witness for C6 at a concrete state with a submission in flight. -/
theorem c6_resolved_resets_witness :
    (step inFlightExample (Event.serviceOutcome Outcome.resolved)).1.form = defaultValues ∧
    (step inFlightExample (Event.serviceOutcome Outcome.resolved)).1.selectedFileName = none ∧
    (step inFlightExample (Event.serviceOutcome Outcome.resolved)).1.fileInputValue = "" :=
  c6_resolved_resets inFlightExample ⟨"ab", some daggerFile, "aaaaaaaaaaaaaaaaaaaa"⟩ rfl

/-- Claim C7: when a submission started from a non-pending state with valid
form values is rejected, the form values, the attachment display state and the
file input widget's value are all exactly their pre-submit values: a failure
never discards user-entered data. -/
theorem c7_rejected_preserves (s : PageState) (v : FormValues) (r : String)
    (hp : s.isPending = false) (hv : validate s.form = Except.ok v) :
    (step (step s Event.submitClick).1
        (Event.serviceOutcome (Outcome.rejected r))).1.form = s.form ∧
    (step (step s Event.submitClick).1
        (Event.serviceOutcome (Outcome.rejected r))).1.selectedFileName
      = s.selectedFileName ∧
    (step (step s Event.submitClick).1
        (Event.serviceOutcome (Outcome.rejected r))).1.fileInputValue
      = s.fileInputValue := by
  simp [step, submitClick, resolveWith, hp, hv]

/-- A concrete filled-in state before a submit: valid form, file chosen. -/
def filledExample : PageState :=
  { initialState with
      form := ⟨"Phurba Dagger", some daggerFile, phurbaText⟩
      selectedFileName := some "dagger.jpg" }

/-- Witness for C7: a filled-in form survives a rejected submission. -/
theorem c7_rejected_preserves_witness :
    (step (step filledExample Event.submitClick).1
        (Event.serviceOutcome (Outcome.rejected "network down"))).1.form
      = filledExample.form ∧
    (step (step filledExample Event.submitClick).1
        (Event.serviceOutcome (Outcome.rejected "network down"))).1.selectedFileName
      = filledExample.selectedFileName ∧
    (step (step filledExample Event.submitClick).1
        (Event.serviceOutcome (Outcome.rejected "network down"))).1.fileInputValue
      = filledExample.fileInputValue :=
  c7_rejected_preserves filledExample ⟨"Phurba Dagger", some daggerFile, phurbaText⟩
    "network down" rfl rfl

/-- Claim C8: the Phurba Dagger submission passes validation, and the summary
is the deterministic template over the inputs: without a file it contains
"Phurba Dagger" and not "with file"; with `dagger.jpg` attached it contains
"dagger.jpg". -/
theorem c8_summary_template :
    validate ⟨"Phurba Dagger", none, phurbaText⟩
      = Except.ok ⟨"Phurba Dagger", none, phurbaText⟩ ∧
    (runEvents initialState scenario1).summary.map
        (fun t => strContains t "Phurba Dagger" && !strContains t "with file")
      = some true ∧
    (runEvents initialState scenario2).summary.map
        (fun t => strContains t "dagger.jpg")
      = some true := by
  refine ⟨rfl, ?_, ?_⟩ <;> decide

/-- Claim C9: the concrete dispatch — the simulated two-second delay — always
resolves, so every submission started from a non-pending state with values
that pass validation reaches the success branch: the summary is set from the
template and the only emitted effect is the success toast; the error branch
never runs. -/
theorem c9_simulated_service_never_rejects (s : PageState) (v : FormValues)
    (hp : s.isPending = false) (hv : validate s.form = Except.ok v) :
    simulateDispatch v = Outcome.resolved ∧
    (step (step s Event.submitClick).1
        (Event.serviceOutcome (simulateDispatch v))).1.summary
      = some (summaryText v) ∧
    (step (step s Event.submitClick).1
        (Event.serviceOutcome (simulateDispatch v))).2
      = [Effect.notifySuccess "Contribution Received!"
          "Your submission has been sent for review."] := by
  refine ⟨rfl, ?_, ?_⟩ <;> simp [step, submitClick, resolveWith, simulateDispatch, hp, hv]

/-- Witness for C9 at a concrete valid submission. -/
theorem c9_simulated_service_never_rejects_witness :
    simulateDispatch ⟨"ab", none, "bbbbbbbbbbbbbbbbbbbb"⟩ = Outcome.resolved ∧
    (step (step { initialState with form := ⟨"ab", none, "bbbbbbbbbbbbbbbbbbbb"⟩ }
            Event.submitClick).1
        (Event.serviceOutcome (simulateDispatch ⟨"ab", none, "bbbbbbbbbbbbbbbbbbbb"⟩))).1.summary
      = some (summaryText ⟨"ab", none, "bbbbbbbbbbbbbbbbbbbb"⟩) ∧
    (step (step { initialState with form := ⟨"ab", none, "bbbbbbbbbbbbbbbbbbbb"⟩ }
            Event.submitClick).1
        (Event.serviceOutcome (simulateDispatch ⟨"ab", none, "bbbbbbbbbbbbbbbbbbbb"⟩))).2
      = [Effect.notifySuccess "Contribution Received!"
          "Your submission has been sent for review."] :=
  c9_simulated_service_never_rejects _ ⟨"ab", none, "bbbbbbbbbbbbbbbbbbbb"⟩
    rfl rfl

/-- Claim C10: starting a submission clears any previously displayed summary,
and after a rejected outcome the presenter shows the awaiting-input branch —
the summary is still cleared and the pending flag is off — never the previous
summary and never a failure view. -/
theorem c10_reject_renders_awaiting (s : PageState) (v : FormValues) (r : String)
    (hp : s.isPending = false) (hv : validate s.form = Except.ok v) :
    (step s Event.submitClick).1.summary = none ∧
    render (step (step s Event.submitClick).1
        (Event.serviceOutcome (Outcome.rejected r))).1
      = RenderBranch.awaitingInput := by
  constructor <;> simp [step, submitClick, resolveWith, render, hp, hv]

/-- A concrete state that already displays a summary, with a valid form. -/
def displayedExample : PageState :=
  { initialState with
      form := ⟨"cd", none, "cccccccccccccccccccc"⟩
      summary := some "old summary" }

/-- Witness for C10: a state already displaying a summary loses it on the next
submit, and a rejection lands on the awaiting-input branch. -/
theorem c10_reject_renders_awaiting_witness :
    (step displayedExample Event.submitClick).1.summary = none ∧
    render (step (step displayedExample Event.submitClick).1
        (Event.serviceOutcome (Outcome.rejected "boom"))).1
      = RenderBranch.awaitingInput :=
  c10_reject_renders_awaiting displayedExample ⟨"cd", none, "cccccccccccccccccccc"⟩ "boom"
    rfl rfl

end Community
